import Mathlib

/-!
Shallow embedding of the media-element audio-routing manager of
FireFoxTabVolumeControl (`src/content/modules/audioManager.js`, class
`AudioManager`), together with proofs of the specification claims about it.

Modelling conventions:
* Media elements are identified by natural-number ids.  The DOM attributes the
  manager reads from an element (`crossOrigin`, `src`, `currentSrc`, the first
  nested `<source>` tag's `src`) are collected in `ElemAttrs`; in the DOM,
  `src` and `currentSrc` are strings (empty when unset) and `crossOrigin` is
  `null` or a string, which we model as `Option String`.
* The ambient platform (`window.location`, `new URL(...).origin`, whether the
  `AudioContext` constructor succeeds, whether `createMediaElementSource`
  throws for a given element, whether `AudioContext.close()` throws) is an
  explicit `Env` record.  `resolveOrigin s = none` models `new URL(s)`
  throwing; `some o` models a successful parse with origin `o`.
* JavaScript exceptions inside the manager are always caught by the manager
  itself, so every operation is modelled as a total Lean function; the
  possible platform failures are the `Env` oracles.
* The mutable field `element._audioSource` (the permanent binding marker the
  code stores on the element) outlives the manager's own sets, so it lives in
  `World.markers`, next to the `ManagerState`.
* `gainValue` models `gainNode.gain.value`; a freshly created `GainNode` has
  gain `1` (Web Audio default).  The field is only meaningful while
  `gainNode = true`.
* The `AudioContext` construction in `initAudioContext` (constructor,
  `createGain`, `connect(destination)`) is modelled as a single fallible step
  (`Env.audioContextOk`): on the platform, `createGain` and a same-context
  `connect` do not throw on a freshly constructed running context, so the
  constructor is the only failure point.
-/

namespace TabVolume

/-- Modelled from the spec: `VOLUME_MAX` is imported by `audioManager.js` from
`src/content/modules/constants.js`, which is not part of the sources at hand.
The spec fixes the scale: `setGain` applies `volumePercent / 100`, 100% being
unity gain, so `VOLUME_MAX = 100`. -/
def VOLUME_MAX : ℚ := 100

/-- The DOM attributes of a media element that the manager reads. -/
structure ElemAttrs where
  crossOrigin : Option String
  src : String
  currentSrc : String
  sourceTagSrc : Option String
  deriving DecidableEq

/-- The ambient platform: page location, URL parsing and the fallible
platform calls, plus the current attributes of every element id. -/
structure Env where
  hostname : String
  pageOrigin : String
  resolveOrigin : String → Option String
  audioContextOk : Bool
  closeThrows : Bool
  bindOk : Nat → Bool
  attrs : Nat → ElemAttrs

/-- The fields of the `AudioManager` instance.  `audioContext` and `gainNode`
record whether the respective reference is non-null; `connectedElements`,
`blockedSites` and `blockedElements` are the three caches (the `WeakSet` of
blocked elements is modelled as a set of ids). -/
structure ManagerState where
  audioContext : Bool
  gainNode : Bool
  gainValue : ℚ
  connectedElements : Finset Nat
  blockedSites : Finset String
  blockedElements : Finset Nat
  deriving DecidableEq

/-- Manager state plus the per-element `_audioSource` binding markers, which
live on the elements themselves and survive `reset`. -/
structure World where
  mgr : ManagerState
  markers : Nat → Bool

/-- The state the `AudioManager` constructor produces: both graph references
null, all three sets empty.  (`gainValue` is irrelevant while no gain node
exists; it is set to the Web Audio default `1` whenever one is created.) -/
def freshManager : ManagerState :=
  { audioContext := false
    gainNode := false
    gainValue := 1
    connectedElements := ∅
    blockedSites := ∅
    blockedElements := ∅ }

/-- Embedding of `AudioManager.initAudioContext`: if a context already exists
return `true`; otherwise attempt to construct context plus gain stage wired to
the destination (one fallible platform step, see the header note), returning
whether a usable graph exists afterwards. -/
def initAudioContext (env : Env) (st : ManagerState) : Bool × ManagerState :=
  if st.audioContext then (true, st)
  else if env.audioContextOk then
    (true, { st with audioContext := true, gainNode := true, gainValue := 1 })
  else (false, st)

/-- Embedding of `AudioManager.isSiteBlocked`: membership of the lower-cased
current hostname in `blockedSites`. -/
def isSiteBlocked (env : Env) (st : ManagerState) : Bool :=
  decide (env.hostname.toLower ∈ st.blockedSites)

/-- Embedding of `AudioManager.markSiteAsBlocked`. -/
def markSiteAsBlocked (env : Env) (st : ManagerState) : ManagerState :=
  { st with blockedSites := insert env.hostname.toLower st.blockedSites }

/-- The source list `[element.src, element.currentSrc,
element.querySelector('source')?.src].filter(Boolean)`: empty strings and the
missing source tag are dropped. -/
def sourcesOf (a : ElemAttrs) : List String :=
  (([some a.src, some a.currentSrc, a.sourceTagSrc].filterMap id).filter
    (fun s => !(s == "")))

/-- JavaScript `String.prototype.startsWith`, taken on the character list of
the string (character-wise prefix test). -/
def jsStartsWith (s p : String) : Bool := p.data.isPrefixOf s.data

/-- The body of the `sources.some(...)` callback in `isCrossOriginElement`,
folded over the source list: `some true` / `some false` are the boolean
results, `none` models a `new URL` throw escaping to the surrounding
`catch`.  `blob:` and `data:` sources are judged same-origin without being
parsed; any other source is parsed and compared with the page origin. -/
def crossOriginScan (env : Env) : List String → Option Bool
  | [] => some false
  | src :: rest =>
    if jsStartsWith src "blob:" then crossOriginScan env rest
    else if jsStartsWith src "data:" then crossOriginScan env rest
    else
      match env.resolveOrigin src with
      | none => none
      | some srcOrigin =>
        if srcOrigin ≠ env.pageOrigin then some true
        else crossOriginScan env rest

/-- The second half of `isCrossOriginElement`: gather the sources; with no
sources report not cross-origin; otherwise scan them, the surrounding `try`
turning a parse throw into `true`. -/
def crossOriginRest (env : Env) (a : ElemAttrs) : Bool :=
  if (sourcesOf a).isEmpty then false
  else
    match crossOriginScan env (sourcesOf a) with
    | none => true
    | some b => b

/-- Embedding of `AudioManager.isCrossOriginElement`.  First check: an element
with `crossOrigin === null` and a non-empty `currentSrc` has that source's
origin parsed and compared against the page origin (parse failure, caught by
the first `try`, reports cross-origin); a mismatch reports cross-origin,
otherwise the code falls through to the source-list scan `crossOriginRest`. -/
def isCrossOriginElement (env : Env) (a : ElemAttrs) : Bool :=
  if a.crossOrigin = none ∧ a.currentSrc ≠ "" then
    match env.resolveOrigin a.currentSrc with
    | none => true
    | some srcOrigin =>
      if srcOrigin ≠ env.pageOrigin then true else crossOriginRest env a
  else crossOriginRest env a

/-- Embedding of `AudioManager.shouldBlockAmplification`: previously blocked
element, or a live cross-origin check on its current attributes. -/
def shouldBlockAmplification (env : Env) (st : ManagerState) (e : Nat) : Bool :=
  if e ∈ st.blockedElements then true
  else isCrossOriginElement env (env.attrs e)

/-- Result of a `tryConnectToAudioContext` call: the returned boolean, whether
the platform binding (`createMediaElementSource`) was attempted, and the
resulting world. -/
structure ConnectResult where
  result : Bool
  bindAttempted : Bool
  world : World

/-- Embedding of `AudioManager.tryConnectToAudioContext`: fail when the graph
is absent; succeed silently when already tracked; re-track without a new
binding when the element carries an `_audioSource` marker; refuse when
`shouldBlockAmplification` holds; otherwise attempt the platform binding,
which on success records the marker and tracks the element and on a throw
adds the element to `blockedElements` (the `e.message` inspection in the
catch only logs). -/
def tryConnectToAudioContext (env : Env) (w : World) (e : Nat) : ConnectResult :=
  if ¬ w.mgr.audioContext ∨ ¬ w.mgr.gainNode then ⟨false, false, w⟩
  else if e ∈ w.mgr.connectedElements then ⟨true, false, w⟩
  else if w.markers e then
    ⟨true, false,
      { w with mgr := { w.mgr with connectedElements := insert e w.mgr.connectedElements } }⟩
  else if shouldBlockAmplification env w.mgr e then ⟨false, false, w⟩
  else if env.bindOk e then
    ⟨true, true,
      { mgr := { w.mgr with connectedElements := insert e w.mgr.connectedElements }
        markers := fun n => if n = e then true else w.markers n }⟩
  else
    ⟨false, true,
      { w with mgr := { w.mgr with blockedElements := insert e w.mgr.blockedElements } }⟩

/-- Embedding of `AudioManager.setGainValue`: write `volume / VOLUME_MAX` to
the gain stage, but only when the gain node exists, the site is not blocked
and at least one element is tracked; otherwise do nothing. -/
def setGainValue (env : Env) (st : ManagerState) (volume : ℚ) : ManagerState :=
  if st.gainNode ∧ ¬ isSiteBlocked env st ∧ 0 < st.connectedElements.card then
    { st with gainValue := volume / VOLUME_MAX }
  else st

/-- Embedding of `AudioManager.isAmplificationAvailable`:
`!isSiteBlocked() && (audioContext || initAudioContext())` with JavaScript
short-circuiting, so `initAudioContext` (and its state change) only runs when
the site is not blocked and no context exists yet. -/
def isAmplificationAvailable (env : Env) (st : ManagerState) : Bool × ManagerState :=
  if isSiteBlocked env st then (false, st)
  else if st.audioContext then (true, st)
  else initAudioContext env st

/-- Embedding of `AudioManager.cleanupAudioSource`: remove the element from
tracking only; the underlying audio connection is deliberately untouched. -/
def cleanupAudioSource (st : ManagerState) (e : Nat) : ManagerState :=
  { st with connectedElements := st.connectedElements.erase e }

/-- Embedding of `AudioManager.reset`: clear `blockedSites`, replace
`blockedElements` with a fresh empty set, close and discard the graph when a
context exists (the `close()` throw is swallowed, so the result does not
depend on `Env.closeThrows`), and clear `connectedElements`.  The binding
markers live on the elements and are untouched. -/
def reset (_env : Env) (w : World) : World :=
  { mgr :=
      if w.mgr.audioContext then
        { w.mgr with
            blockedSites := ∅
            blockedElements := ∅
            audioContext := false
            gainNode := false
            connectedElements := ∅ }
      else
        { w.mgr with
            blockedSites := ∅
            blockedElements := ∅
            connectedElements := ∅ }
    markers := w.markers }

/-- The public operations of the manager, as enumerated in the spec's
external-interface section (plus the origin-blocking primitive
`markSiteAsBlocked`, which only inserts into `blockedSites`).  `ensureGraph`,
`isAvailable`, `shouldBlock`, `connect`, `setGain`, `untrack` and `reset` are
the spec's names for `initAudioContext`, `isAmplificationAvailable`,
`shouldBlockAmplification`, `tryConnectToAudioContext`, `setGainValue`,
`cleanupAudioSource` and `reset`. -/
inductive Op where
  | ensureGraph
  | isAvailable
  | shouldBlock (e : Nat)
  | connect (e : Nat)
  | setGain (v : ℚ)
  | untrack (e : Nat)
  | reset
  | markOrigin
  deriving DecidableEq

/-- The state change each public operation performs on the world.
`shouldBlockAmplification` only reads (`WeakSet.has`, DOM reads), so its
effect on the world is the identity. -/
def stepWorld (env : Env) (w : World) : Op → World
  | .ensureGraph => { w with mgr := (initAudioContext env w.mgr).2 }
  | .isAvailable => { w with mgr := (isAmplificationAvailable env w.mgr).2 }
  | .shouldBlock _ => w
  | .connect e => (tryConnectToAudioContext env w e).world
  | .setGain v => { w with mgr := setGainValue env w.mgr v }
  | .untrack e => { w with mgr := cleanupAudioSource w.mgr e }
  | .reset => reset env w
  | .markOrigin => { w with mgr := markSiteAsBlocked env w.mgr }

/-- Worlds reachable from a fresh manager by any sequence of public
operations, each step under an arbitrary environment.  The initial binding
markers are arbitrary: elements may carry `_audioSource` markers left by an
earlier manager instance on the same page. -/
inductive Reachable : World → Prop
  | init (markers : Nat → Bool) : Reachable ⟨freshManager, markers⟩
  | step (env : Env) (op : Op) {w : World} :
      Reachable w → Reachable (stepWorld env w op)

/-- A concrete environment for a page at `https://e.com`.  Its
`resolveOrigin` is faithful to the URL standard on the one string it is
queried on: `new URL("data:x")` parses successfully and a `data:` URL's
origin is the opaque origin, which serializes to the string `"null"`. -/
def envC2 : Env :=
  { hostname := "e.com"
    pageOrigin := "https://e.com"
    resolveOrigin := fun s => if s = "data:x" then some "null" else none
    audioContextOk := true
    closeThrows := false
    bindOk := fun _ => true
    attrs := fun _ => ⟨none, "", "", none⟩ }

/-- A media element whose every available source URL is the `data:` reference
`"data:x"` and whose `crossOrigin` attribute is unset (`null`). -/
def attrsC2 : ElemAttrs := ⟨none, "data:x", "data:x", none⟩

/-- The element of `attrsC2` with its `crossOrigin` attribute set. -/
def attrsAnon : ElemAttrs := ⟨some "anonymous", "data:x", "data:x", none⟩

/-- An element with an unset `crossOrigin` attribute and a plain `http:`
source. -/
def attrsHttp : ElemAttrs := ⟨none, "http://a", "http://a", none⟩

/-- An environment in which every URL parse throws. -/
def envNoParse : Env := { envC2 with resolveOrigin := fun _ => none }

/-- An environment in which the platform binding attempt always throws. -/
def envBindFail : Env := { envC2 with bindOk := fun _ => false }

/-- An environment in which `AudioContext` construction fails. -/
def envNoCtx : Env := { envC2 with audioContextOk := false }

/-- A manager with a live graph (default gain `1`) tracking element `1`. -/
def stG : ManagerState :=
  { audioContext := true
    gainNode := true
    gainValue := 1
    connectedElements := insert 1 ∅
    blockedSites := ∅
    blockedElements := ∅ }

/-- A fresh world: fresh manager, no element carries a binding marker. -/
def w0 : World := ⟨freshManager, fun _ => false⟩

/-- A world with a live graph tracking element `1`, no binding markers. -/
def wG : World := ⟨stG, fun _ => false⟩

/-- A world with a live graph tracking element `1`, where every element
carries a binding marker from an earlier manager instance. -/
def wGm : World := ⟨stG, fun _ => true⟩

/-- Scanning a source list all of whose members are `blob:` or `data:`
references reports same-origin without any URL parse. -/
theorem crossOriginScan_all_self (env : Env) :
    ∀ l : List String,
      (∀ s ∈ l, jsStartsWith s "blob:" = true ∨ jsStartsWith s "data:" = true) →
      crossOriginScan env l = some false := by
  intro l
  induction l with
  | nil => intro _; rfl
  | cons s rest ih =>
    intro h
    have hs := h s (List.mem_cons_self s rest)
    have hrest : ∀ x ∈ rest, jsStartsWith x "blob:" = true ∨ jsStartsWith x "data:" = true :=
      fun x hx => h x (List.mem_cons_of_mem s hx)
    rcases hs with hb | hd
    · simp [crossOriginScan, hb, ih hrest]
    · unfold crossOriginScan
      rcases hblob : jsStartsWith s "blob:" with _ | _ <;>
        simp [hblob, hd, ih hrest]

/-- If some source in the list is neither a `blob:` nor a `data:` reference
and fails to parse, the scan cannot report same-origin: it either reports a
mismatch first or the parse failure escapes. -/
theorem crossOriginScan_ne_false (env : Env) :
    ∀ l : List String,
      (∃ s ∈ l, jsStartsWith s "blob:" = false ∧ jsStartsWith s "data:" = false ∧
        env.resolveOrigin s = none) →
      crossOriginScan env l ≠ some false := by
  intro l
  induction l with
  | nil => rintro ⟨s, hs, -⟩; exact absurd hs (List.not_mem_nil s)
  | cons a rest ih =>
    rintro ⟨s, hs, hnb, hnd, hno⟩
    rcases List.mem_cons.mp hs with rfl | hmem
    · unfold crossOriginScan
      simp only [hnb, hnd, hno]
      rcases hr : crossOriginScan env rest <;> simp
    · unfold crossOriginScan
      by_cases hab : jsStartsWith a "blob:" = true
      · simpa [hab] using ih ⟨s, hmem, hnb, hnd, hno⟩
      · by_cases had : jsStartsWith a "data:" = true
        · simp only [Bool.not_eq_true] at hab
          simpa [hab, had] using ih ⟨s, hmem, hnb, hnd, hno⟩
        · simp only [Bool.not_eq_true] at hab had
          rcases hra : env.resolveOrigin a with _ | o
          · simp [hab, had, hra]
          · by_cases ho : o = env.pageOrigin
            · simpa [hab, had, hra, ho] using ih ⟨s, hmem, hnb, hnd, hno⟩
            · simp [hab, had, hra, ho]

/-- C1: for every integer `volumePercent` in `[0, 500]`, when the gain stage
exists, the current origin is not blocked and the tracked set is non-empty,
`setGainValue` writes exactly `volumePercent / 100` to the shared gain stage
and changes nothing else; when any of the three conditions fails the call is
a no-op on the whole manager state (and, being total, it does not throw). -/
theorem c1_setGain_divides_by_100 (env : Env) (st : ManagerState) (n : ℕ)
    (_hn : n ≤ 500) :
    (st.gainNode = true → isSiteBlocked env st = false →
      st.connectedElements.Nonempty →
      setGainValue env st (n : ℚ) = { st with gainValue := (n : ℚ) / 100 }) ∧
    (st.gainNode = false ∨ isSiteBlocked env st = true ∨
        st.connectedElements = ∅ →
      setGainValue env st (n : ℚ) = st) := by
  constructor
  · intro hg hb hne
    have hcard : 0 < st.connectedElements.card := Finset.card_pos.mpr hne
    simp [setGainValue, VOLUME_MAX, hg, hb, hcard]
  · intro h
    rcases h with hg | hb | hne
    · simp [setGainValue, hg]
    · simp [setGainValue, hb]
    · simp [setGainValue, hne]

/-- Witness for C1 at `volumePercent = 200` on a manager with a live graph
tracking one element: the gain becomes `200 / 100`. -/
theorem c1_setGain_divides_by_100_witness :
    (200 : ℕ) ≤ 500 ∧
      setGainValue envC2 stG ((200 : ℕ) : ℚ) =
        { stG with gainValue := ((200 : ℕ) : ℚ) / 100 } :=
  ⟨by decide,
    (c1_setGain_divides_by_100 envC2 stG 200 (by decide)).1 rfl (by decide)
      ⟨1, by decide⟩⟩

/-- C2 counterexample: `attrsC2` has `crossOrigin` unset and every available
source URL equal to the `data:` reference `"data:x"`, yet
`isCrossOriginElement` reports it cross-origin: the first check parses
`currentSrc`, obtains the opaque origin `"null"`, and that differs from the
page origin.  The claim asserts `false` for every such element. -/
theorem c2_data_blob_counterexample :
    attrsC2.crossOrigin = none ∧
    sourcesOf attrsC2 = ["data:x", "data:x"] ∧
    (sourcesOf attrsC2).all
      (fun s => jsStartsWith s "blob:" || jsStartsWith s "data:") = true ∧
    isCrossOriginElement envC2 attrsC2 = true := by
  refine ⟨rfl, by decide, by decide, by decide⟩

/-- C2 amended: an element all of whose available source URLs are `data:` or
`blob:` references is reported same-origin, provided the first check does not
fire on its `currentSrc`: that is, its `crossOrigin` attribute is set, or it
has no currently playing source, or that source's parsed origin equals the
page origin.  (With the attribute unset and a non-empty `data:`/`blob:`
`currentSrc` whose parsed origin differs from the page origin — e.g. any
`data:` URL, whose origin is the opaque `"null"` — the element is reported
cross-origin instead.) -/
theorem c2_data_blob_same_origin (env : Env) (a : ElemAttrs)
    (hall : ∀ s ∈ sourcesOf a,
      jsStartsWith s "blob:" = true ∨ jsStartsWith s "data:" = true)
    (hfirst : a.crossOrigin ≠ none ∨ a.currentSrc = "" ∨
      env.resolveOrigin a.currentSrc = some env.pageOrigin) :
    isCrossOriginElement env a = false := by
  have hrest : crossOriginRest env a = false := by
    unfold crossOriginRest
    rcases he : (sourcesOf a).isEmpty with _ | _
    · simp only [Bool.false_eq_true, if_false, crossOriginScan_all_self env _ hall]
    · simp
  unfold isCrossOriginElement
  rcases hfirst with h | h | h
  · simp [h, hrest]
  · simp [h, hrest]
  · by_cases hc : a.crossOrigin = none ∧ a.currentSrc ≠ ""
    · simp [hc, h, hrest]
    · simp [hc, hrest]

/-- Witness for the amended C2: the all-`data:` element with its
`crossOrigin` attribute set is reported same-origin. -/
theorem c2_data_blob_same_origin_witness :
    (∀ s ∈ sourcesOf attrsAnon,
      jsStartsWith s "blob:" = true ∨ jsStartsWith s "data:" = true) ∧
      isCrossOriginElement envC2 attrsAnon = false :=
  ⟨by decide, c2_data_blob_same_origin envC2 attrsAnon (by decide) (by decide)⟩

/-- C3: `initAudioContext` is idempotent and atomic on failure.  When a
context already exists it returns `true` and changes nothing; when no context
exists and construction fails it returns `false` and changes nothing, so a
manager that had no graph (both references absent) still has none; and
running it a second time gives the same answer and the same state. -/
theorem c3_ensureGraph_idempotent_atomic (env : Env) (st : ManagerState) :
    (st.audioContext = true → initAudioContext env st = (true, st)) ∧
    (st.audioContext = false → env.audioContextOk = false →
      initAudioContext env st = (false, st)) ∧
    (st.audioContext = false → st.gainNode = false → env.audioContextOk = false →
      (initAudioContext env st).2.audioContext = false ∧
      (initAudioContext env st).2.gainNode = false) ∧
    initAudioContext env (initAudioContext env st).2 = initAudioContext env st := by
  refine ⟨?_, ?_, ?_, ?_⟩
  · intro h; simp [initAudioContext, h]
  · intro h hk; simp [initAudioContext, h, hk]
  · intro h hg hk; simp [initAudioContext, h, hk, hg]
  · unfold initAudioContext
    rcases hctx : st.audioContext with _ | _
    · rcases hk : env.audioContextOk with _ | _ <;> simp [hctx, hk]
    · simp [hctx]

/-- Witness for C3 on a fresh manager in an environment where `AudioContext`
construction fails: the call reports failure and leaves the fresh (graphless)
state untouched. -/
theorem c3_ensureGraph_idempotent_atomic_witness :
    freshManager.audioContext = false ∧
      initAudioContext envNoCtx freshManager = (false, freshManager) :=
  ⟨rfl, (c3_ensureGraph_idempotent_atomic envNoCtx freshManager).2.1 rfl rfl⟩

/-- Every public operation preserves "gain stage exists iff context exists". -/
theorem stepWorld_preserves_graph_iff (env : Env) (op : Op) (w : World)
    (ih : w.mgr.gainNode = w.mgr.audioContext) :
    (stepWorld env w op).mgr.gainNode = (stepWorld env w op).mgr.audioContext := by
  cases op with
  | ensureGraph =>
    simp only [stepWorld]
    unfold initAudioContext
    split_ifs <;> simp [ih]
  | isAvailable =>
    simp only [stepWorld]
    unfold isAmplificationAvailable initAudioContext
    split_ifs <;> simp [ih]
  | shouldBlock e => exact ih
  | connect e =>
    simp only [stepWorld]
    unfold tryConnectToAudioContext
    split_ifs <;> exact ih
  | setGain v =>
    simp only [stepWorld]
    unfold setGainValue
    split_ifs <;> exact ih
  | untrack e => exact ih
  | reset =>
    simp only [stepWorld]
    unfold reset
    split_ifs with ha
    · rfl
    · have : w.mgr.audioContext = false := by simpa using ha
      show w.mgr.gainNode = w.mgr.audioContext
      exact ih
  | markOrigin => exact ih

/-- C4: in every world reachable from a fresh manager by the public
operations, the gain-stage reference is non-null exactly when the
audio-context reference is non-null. -/
theorem c4_gain_iff_context (w : World) (h : Reachable w) :
    w.mgr.gainNode = w.mgr.audioContext := by
  induction h with
  | init markers => rfl
  | step env op hr ih => exact stepWorld_preserves_graph_iff env op _ ih

/-- Witness for C4 at the fresh world. -/
theorem c4_gain_iff_context_witness :
    Reachable w0 ∧ w0.mgr.gainNode = w0.mgr.audioContext :=
  ⟨Reachable.init (fun _ => false),
    c4_gain_iff_context w0 (Reachable.init (fun _ => false))⟩

/-- The strengthened invariant behind C8: no blocked element is tracked, and
no blocked element carries a binding marker. -/
def GoodWorld (w : World) : Prop :=
  (∀ e ∈ w.mgr.blockedElements, e ∉ w.mgr.connectedElements) ∧
  (∀ e ∈ w.mgr.blockedElements, w.markers e = false)

/-- Every public operation preserves `GoodWorld`. -/
theorem stepWorld_preserves_good (env : Env) (op : Op) (w : World)
    (ih : GoodWorld w) : GoodWorld (stepWorld env w op) := by
  obtain ⟨ihd, ihm⟩ := ih
  cases op with
  | ensureGraph =>
    simp only [stepWorld]
    unfold initAudioContext
    split_ifs <;> exact ⟨ihd, ihm⟩
  | isAvailable =>
    simp only [stepWorld]
    unfold isAmplificationAvailable initAudioContext
    split_ifs <;> exact ⟨ihd, ihm⟩
  | shouldBlock e => exact ⟨ihd, ihm⟩
  | connect e0 =>
    simp only [stepWorld]
    unfold tryConnectToAudioContext
    split_ifs with h1 h2 h3 h4 h5
    · exact ⟨ihd, ihm⟩
    · exact ⟨ihd, ihm⟩
    · refine ⟨?_, ihm⟩
      intro e he
      show e ∉ insert e0 w.mgr.connectedElements
      rw [Finset.mem_insert]
      rintro (rfl | hc)
      · rw [ihm e he] at h3
        exact Bool.false_ne_true h3
      · exact ihd e he hc
    · exact ⟨ihd, ihm⟩
    · constructor
      · intro e he
        show e ∉ insert e0 w.mgr.connectedElements
        rw [Finset.mem_insert]
        rintro (rfl | hc)
        · exact h4 (by unfold shouldBlockAmplification; rw [if_pos he])
        · exact ihd e he hc
      · intro e he
        show (if e = e0 then true else w.markers e) = false
        rw [if_neg, ihm e he]
        rintro rfl
        exact h4 (by unfold shouldBlockAmplification; rw [if_pos he])
    · constructor
      · intro e he
        rcases Finset.mem_insert.mp he with rfl | hb
        · exact h2
        · exact ihd e hb
      · intro e he
        rcases Finset.mem_insert.mp he with rfl | hb
        · simpa using h3
        · exact ihm e hb
  | setGain v =>
    simp only [stepWorld]
    unfold setGainValue
    split_ifs <;> exact ⟨ihd, ihm⟩
  | untrack e0 =>
    refine ⟨?_, ihm⟩
    intro e he hc
    exact ihd e he (Finset.mem_of_mem_erase hc)
  | reset =>
    simp only [stepWorld]
    unfold reset
    split_ifs <;>
      exact ⟨fun e he => absurd he (Finset.not_mem_empty e),
        fun e he => absurd he (Finset.not_mem_empty e)⟩
  | markOrigin => exact ⟨ihd, ihm⟩

/-- C8: in every world reachable from a fresh manager by the public
operations, no element is in both the tracked set and the blocked-element
set. -/
theorem c8_tracked_blocked_disjoint (w : World) (h : Reachable w) (e : Nat) :
    ¬ (e ∈ w.mgr.connectedElements ∧ e ∈ w.mgr.blockedElements) := by
  have hg : GoodWorld w := by
    induction h with
    | init markers =>
      exact ⟨fun e he => absurd he (Finset.not_mem_empty e),
        fun e he => absurd he (Finset.not_mem_empty e)⟩
    | step env op hr ih => exact stepWorld_preserves_good env op _ ih
  exact fun ⟨hc, hb⟩ => hg.1 e hb hc

/-- Witness for C8 at the fresh world and element `5`. -/
theorem c8_tracked_blocked_disjoint_witness :
    Reachable w0 ∧
      ¬ ((5 : Nat) ∈ w0.mgr.connectedElements ∧ (5 : Nat) ∈ w0.mgr.blockedElements) :=
  ⟨Reachable.init (fun _ => false),
    c8_tracked_blocked_disjoint w0 (Reachable.init (fun _ => false)) 5⟩

/-- C5: if any candidate source URL that the cross-origin evaluation parses
fails to parse — the `currentSrc` examined by the first check, or any
gathered source that is not a `blob:`/`data:` reference (those are judged
without parsing) — then `isCrossOriginElement` returns `true`, never
`false`. -/
theorem c5_parse_failure_fail_safe (env : Env) (a : ElemAttrs)
    (h : (a.crossOrigin = none ∧ a.currentSrc ≠ "" ∧
        env.resolveOrigin a.currentSrc = none) ∨
      (∃ s ∈ sourcesOf a, jsStartsWith s "blob:" = false ∧
        jsStartsWith s "data:" = false ∧ env.resolveOrigin s = none)) :
    isCrossOriginElement env a = true := by
  rcases h with ⟨h1, h2, h3⟩ | hex
  · unfold isCrossOriginElement
    rw [if_pos ⟨h1, h2⟩, h3]
  · have hrest : crossOriginRest env a = true := by
      unfold crossOriginRest
      obtain ⟨s, hs, hb, hd, hn⟩ := hex
      have hne : (sourcesOf a).isEmpty = false := by
        rcases hl : sourcesOf a with _ | ⟨x, xs⟩
        · rw [hl] at hs; exact absurd hs (List.not_mem_nil s)
        · rfl
      rw [hne]
      have hnf := crossOriginScan_ne_false env (sourcesOf a) ⟨s, hs, hb, hd, hn⟩
      rcases hscan : crossOriginScan env (sourcesOf a) with _ | b
      · simp
      · cases b
        · exact absurd hscan hnf
        · simp
    unfold isCrossOriginElement
    by_cases hc : a.crossOrigin = none ∧ a.currentSrc ≠ ""
    · rw [if_pos hc]
      rcases hro : env.resolveOrigin a.currentSrc with _ | o
      · rfl
      · dsimp only
        by_cases ho : o = env.pageOrigin
        · rw [if_neg (not_not.mpr ho)]; exact hrest
        · rw [if_pos ho]
    · rw [if_neg hc]; exact hrest

/-- Witness for C5: an element with `crossOrigin` unset and a non-empty
`currentSrc` in an environment where every URL parse throws is reported
cross-origin. -/
theorem c5_parse_failure_fail_safe_witness :
    (attrsHttp.crossOrigin = none ∧ attrsHttp.currentSrc ≠ "" ∧
        envNoParse.resolveOrigin attrsHttp.currentSrc = none) ∧
      isCrossOriginElement envNoParse attrsHttp = true :=
  ⟨⟨rfl, by decide, rfl⟩,
    c5_parse_failure_fail_safe envNoParse attrsHttp
      (Or.inl ⟨rfl, by decide, rfl⟩)⟩

/-- C6: `reset` empties the blocked-origin, blocked-element and tracked sets
and discards both graph references (given the C4 invariant that a gain stage
only exists together with a context); it ignores the close-failure oracle
entirely (the `close()` throw is swallowed, so the call never throws and its
result does not depend on it); and it removes no binding marker, so an
element carrying a marker can be re-registered by a later `connect` — after
the graph is re-established — which returns `true` with no new platform
binding attempt. -/
theorem c6_reset_clears_markers_survive (env env2 : Env) (w : World) (e : Nat)
    (hinv : w.mgr.gainNode = true → w.mgr.audioContext = true)
    (hctx : env2.audioContextOk = true) (hm : w.markers e = true) :
    (reset env w).mgr.blockedSites = ∅ ∧
    (reset env w).mgr.blockedElements = ∅ ∧
    (reset env w).mgr.connectedElements = ∅ ∧
    (reset env w).mgr.audioContext = false ∧
    (reset env w).mgr.gainNode = false ∧
    (reset env w).markers = w.markers ∧
    reset env w = reset env2 w ∧
    (tryConnectToAudioContext env2
        { reset env w with
          mgr := (initAudioContext env2 (reset env w).mgr).2 } e).result = true ∧
    (tryConnectToAudioContext env2
        { reset env w with
          mgr := (initAudioContext env2 (reset env w).mgr).2 } e).bindAttempted = false ∧
    e ∈ (tryConnectToAudioContext env2
        { reset env w with
          mgr := (initAudioContext env2 (reset env w).mgr).2 } e).world.mgr.connectedElements := by
  have hreset :
      reset env w =
        ⟨{ audioContext := false
           gainNode := false
           gainValue := w.mgr.gainValue
           connectedElements := ∅
           blockedSites := ∅
           blockedElements := ∅ }, w.markers⟩ := by
    unfold reset
    rcases ha : w.mgr.audioContext with _ | _
    · have hg : w.mgr.gainNode = false := by
        rcases hb : w.mgr.gainNode with _ | _
        · rfl
        · rw [hinv hb] at ha; exact absurd ha (by simp)
      simp [ha, hg]
    · simp [ha]
  rw [hreset]
  refine ⟨rfl, rfl, rfl, rfl, rfl, rfl, hreset.symm.trans rfl, ?_, ?_, ?_⟩ <;>
  · have hstep :
        tryConnectToAudioContext env2
            ({ mgr :=
                (initAudioContext env2
                  (⟨{ audioContext := false
                      gainNode := false
                      gainValue := w.mgr.gainValue
                      connectedElements := ∅
                      blockedSites := ∅
                      blockedElements := ∅ }, w.markers⟩ : World).mgr).2
               markers := w.markers } : World) e =
          ⟨true, false,
            { mgr :=
                { audioContext := true
                  gainNode := true
                  gainValue := 1
                  connectedElements := insert e ∅
                  blockedSites := ∅
                  blockedElements := ∅ }
              markers := w.markers }⟩ := by
      unfold initAudioContext
      rw [if_neg (Bool.false_ne_true), if_pos hctx]
      unfold tryConnectToAudioContext
      rw [if_neg (by simp), if_neg (Finset.not_mem_empty e), if_pos hm]
    exact hstep ▸ (by first | rfl | exact Finset.mem_insert_self e _)

/-- Witness for C6 on a world with a live graph where every element carries a
binding marker: after `reset`, element `7` reconnects by re-registration. -/
theorem c6_reset_clears_markers_survive_witness :
    (wGm.mgr.gainNode = true → wGm.mgr.audioContext = true) ∧
      envC2.audioContextOk = true ∧ wGm.markers 7 = true ∧
      (reset envC2 wGm).mgr.connectedElements = ∅ ∧
      (tryConnectToAudioContext envC2
          { reset envC2 wGm with
            mgr := (initAudioContext envC2 (reset envC2 wGm).mgr).2 } 7).result = true :=
  ⟨fun _ => rfl, rfl, rfl,
    (c6_reset_clears_markers_survive envC2 envC2 wGm 7 (fun _ => rfl) rfl rfl).2.2.1,
    (c6_reset_clears_markers_survive envC2 envC2 wGm 7 (fun _ => rfl) rfl rfl).2.2.2.2.2.2.2.1⟩

/-- C7: when the platform binding attempt throws, `connect` returns `false`
(totally — no exception propagates), adds the element to the blocked-element
set, leaves the tracked set, the blocked-origin set, and every binding marker
unchanged, makes `shouldBlockAmplification` report `true` for the element
from then on, and a later `connect` for the element returns `false` without a
new binding attempt, under any environment. -/
theorem c7_bind_failure_blocks_element (env env2 : Env) (w : World) (e : Nat)
    (hctx : w.mgr.audioContext = true) (hgn : w.mgr.gainNode = true)
    (hnc : e ∉ w.mgr.connectedElements) (hmk : w.markers e = false)
    (hsb : shouldBlockAmplification env w.mgr e = false)
    (hbind : env.bindOk e = false) :
    (tryConnectToAudioContext env w e).result = false ∧
    (tryConnectToAudioContext env w e).world.mgr.blockedElements =
      insert e w.mgr.blockedElements ∧
    (tryConnectToAudioContext env w e).world.mgr.connectedElements =
      w.mgr.connectedElements ∧
    (tryConnectToAudioContext env w e).world.mgr.blockedSites = w.mgr.blockedSites ∧
    (tryConnectToAudioContext env w e).world.markers = w.markers ∧
    shouldBlockAmplification env2 (tryConnectToAudioContext env w e).world.mgr e = true ∧
    (tryConnectToAudioContext env2 (tryConnectToAudioContext env w e).world e).result = false ∧
    (tryConnectToAudioContext env2
      (tryConnectToAudioContext env w e).world e).bindAttempted = false := by
  have hfail :
      tryConnectToAudioContext env w e =
        ⟨false, true,
          { w with mgr :=
              { w.mgr with blockedElements := insert e w.mgr.blockedElements } }⟩ := by
    unfold tryConnectToAudioContext
    rw [if_neg (by simp [hctx, hgn]), if_neg hnc, if_neg (by simp [hmk]),
      if_neg (by simp [hsb]), if_neg (by simp [hbind])]
  have hsb2 :
      shouldBlockAmplification env2
        (tryConnectToAudioContext env w e).world.mgr e = true := by
    rw [hfail]
    unfold shouldBlockAmplification
    rw [if_pos]
    exact Finset.mem_insert_self e _
  refine ⟨by rw [hfail], by rw [hfail], by rw [hfail], by rw [hfail], by rw [hfail],
    hsb2, ?_, ?_⟩ <;>
  · rw [hfail] at hsb2 ⊢
    unfold tryConnectToAudioContext
    rw [if_neg (by simp [hctx, hgn]), if_neg hnc, if_neg (by simp [hmk]), if_pos hsb2]

/-- Witness for C7: in a graph-bearing world with no markers and an
environment where the binding attempt throws, connecting element `2` fails
and blocks it. -/
theorem c7_bind_failure_blocks_element_witness :
    (wG.mgr.audioContext = true ∧ wG.mgr.gainNode = true ∧
        (2 : Nat) ∉ wG.mgr.connectedElements ∧ wG.markers 2 = false ∧
        shouldBlockAmplification envBindFail wG.mgr 2 = false ∧
        envBindFail.bindOk 2 = false) ∧
      (tryConnectToAudioContext envBindFail wG 2).result = false ∧
      (tryConnectToAudioContext envBindFail wG 2).world.mgr.blockedElements =
        insert 2 wG.mgr.blockedElements :=
  ⟨⟨rfl, rfl, by decide, rfl, by decide, rfl⟩,
    (c7_bind_failure_blocks_element envBindFail envBindFail wG 2 rfl rfl
      (by decide) rfl (by decide) rfl).1,
    (c7_bind_failure_blocks_element envBindFail envBindFail wG 2 rfl rfl
      (by decide) rfl (by decide) rfl).2.1⟩

/-- A `tryConnectToAudioContext` call that returns `true` leaves the element
tracked and the graph references in place. -/
theorem connect_true_tracked (env : Env) (w : World) (e : Nat)
    (h : (tryConnectToAudioContext env w e).result = true) :
    e ∈ (tryConnectToAudioContext env w e).world.mgr.connectedElements ∧
    (tryConnectToAudioContext env w e).world.mgr.audioContext = w.mgr.audioContext ∧
    (tryConnectToAudioContext env w e).world.mgr.gainNode = w.mgr.gainNode ∧
    (w.mgr.audioContext = true ∧ w.mgr.gainNode = true) := by
  unfold tryConnectToAudioContext at h ⊢
  split_ifs at h ⊢ with h1 h2 h3 h4 h5 <;>
  first
    | exact absurd h Bool.false_ne_true
    | (push_neg at h1; exact ⟨h2, rfl, rfl, h1⟩)
    | (push_neg at h1; exact ⟨Finset.mem_insert_self e _, rfl, rfl, h1⟩)

/-- A `tryConnectToAudioContext` call on an already-tracked element with a
live graph is a no-op success with no binding attempt. -/
theorem connect_already_tracked (env : Env) (w : World) (e : Nat)
    (hctx : w.mgr.audioContext = true) (hgn : w.mgr.gainNode = true)
    (he : e ∈ w.mgr.connectedElements) :
    tryConnectToAudioContext env w e = ⟨true, false, w⟩ := by
  unfold tryConnectToAudioContext
  rw [if_neg (by simp [hctx, hgn]), if_pos he]

/-- C9: once `connect` has returned `true` for an element, calling it again
(under any environment) returns `true` with no second platform binding
attempt and with the world — in particular the tracked-set size — unchanged. -/
theorem c9_connect_idempotent (env env2 : Env) (w : World) (e : Nat)
    (h : (tryConnectToAudioContext env w e).result = true) :
    (tryConnectToAudioContext env2
        (tryConnectToAudioContext env w e).world e).result = true ∧
    (tryConnectToAudioContext env2
        (tryConnectToAudioContext env w e).world e).bindAttempted = false ∧
    (tryConnectToAudioContext env2
        (tryConnectToAudioContext env w e).world e).world =
      (tryConnectToAudioContext env w e).world ∧
    (tryConnectToAudioContext env2
        (tryConnectToAudioContext env w e).world e).world.mgr.connectedElements.card =
      (tryConnectToAudioContext env w e).world.mgr.connectedElements.card := by
  obtain ⟨hmem, hac, hgn, hg1, hg2⟩ := connect_true_tracked env w e h
  have h2 :
      tryConnectToAudioContext env2 (tryConnectToAudioContext env w e).world e =
        ⟨true, false, (tryConnectToAudioContext env w e).world⟩ :=
    connect_already_tracked env2 _ e (by rw [hac, hg1]) (by rw [hgn, hg2]) hmem
  rw [h2]
  exact ⟨rfl, rfl, rfl, rfl⟩

/-- Witness for C9: element `1` is already tracked in `wG`, so a first
`connect` returns `true` and the repeated call is a no-op success. -/
theorem c9_connect_idempotent_witness :
    (tryConnectToAudioContext envC2 wG 1).result = true ∧
      (tryConnectToAudioContext envC2
          (tryConnectToAudioContext envC2 wG 1).world 1).result = true ∧
      (tryConnectToAudioContext envC2
          (tryConnectToAudioContext envC2 wG 1).world 1).bindAttempted = false :=
  ⟨by decide,
    (c9_connect_idempotent envC2 envC2 wG 1 (by decide)).1,
    (c9_connect_idempotent envC2 envC2 wG 1 (by decide)).2.1⟩

/-- C10: `shouldBlockAmplification` is side-effect-free — as a public
operation its world transition is the identity, mutating none of the sets,
the markers, or the graph references — and deterministic: a repeated call in
the resulting (identical) state returns the same boolean. -/
theorem c10_shouldBlock_pure (env : Env) (w : World) (e : Nat) :
    stepWorld env w (Op.shouldBlock e) = w ∧
    shouldBlockAmplification env (stepWorld env w (Op.shouldBlock e)).mgr e =
      shouldBlockAmplification env w.mgr e :=
  ⟨rfl, rfl⟩

end TabVolume
